import Mathlib

/-!
Shallow embedding of the acquisition/persistence core of the
Power_Usage_Monitoring_IRIV repository (Rx380_watchdog_1.54/1.55/1.56 and
Rx380_IRIV_1.6).  Register reads, record assembly, the SQL save path and the
scheduler arithmetic are translated from the Python source; external effects
(the Modbus transport, the SQL connection, the CSV file) are oracles.
-/

namespace Rx380

/-- Python exceptions are collapsed to a unit error: every `except Exception`
branch in the source treats all exceptions alike. -/
abbrev PyErr := Unit

/-- Register transport oracle: `readWords address count` is
`instrument.read_registers(address, count)` / `read_register(address, ...)`;
an exception in the driver is `Except.error ()`. -/
abbrev Transport := Nat → Nat → Except PyErr (List Nat)

/-- RX380.read_scaled_value (Rx380_watchdog_1.56.py lines 37-47): read two
words, combine `raw_value[0] << 16 | raw_value[1]`, multiply by the scale
factor; any exception (including a short word list, an IndexError) is caught,
logged with the register address, and yields None.  Result: the value (or
none) and the register addresses logged as errors. -/
def read_scaled_value (T : Transport) (register_address : Nat) (scale_factor : ℚ) :
    Option ℚ × List Nat :=
  match T register_address 2 with
  | .ok (w0 :: w1 :: _) => (some ((((w0 <<< 16) ||| w1 : Nat) : ℚ) * scale_factor), [])
  | .ok _ => (none, [register_address])
  | .error _ => (none, [register_address])

/-- RX380.read_register (Rx380_watchdog_1.56.py lines 49-57): read one word,
interpret per `signed` (16-bit two's complement) and divide by
`10 ^ number_of_decimals`; any exception is caught, logged with the register
address, and yields None. -/
def read_register (T : Transport) (register_address : Nat)
    (number_of_decimals : Nat) (signed : Bool) : Option ℚ × List Nat :=
  match T register_address 1 with
  | .ok (w :: _) =>
      (some ((if signed ∧ 32768 ≤ w then (w : ℚ) - 65536 else (w : ℚ)) /
        (10 : ℚ) ^ number_of_decimals), [])
  | .ok [] => (none, [register_address])
  | .error _ => (none, [register_address])

/-- The two decode shapes used by RX380.read_data. -/
inductive Encoding
  | scaled (scale_factor : ℚ)
  | decimal (number_of_decimals : Nat) (signed : Bool)
deriving DecidableEq

/-- One field of RX380.read_data: its dict key, register address and decode
shape. -/
structure RegSpec where
  name : String
  addr : Nat
  enc : Encoding
deriving DecidableEq

/-- Value of one field: dispatch to read_scaled_value / read_register as the
corresponding line of RX380.read_data does. -/
def decodeField (T : Transport) (s : RegSpec) : Option ℚ :=
  match s.enc with
  | .scaled k => (read_scaled_value T s.addr k).1
  | .decimal d sg => (read_register T s.addr d sg).1

/-- Register addresses logged while decoding one field. -/
def decodeLog (T : Transport) (s : RegSpec) : List Nat :=
  match s.enc with
  | .scaled k => (read_scaled_value T s.addr k).2
  | .decimal d sg => (read_register T s.addr d sg).2

/-- The 24 fields of RX380.read_data (Rx380_watchdog_1.56.py lines 59-104,
identical in 1.55), in the order the dict keys are assigned. -/
def registerSpecs : List RegSpec :=
  [⟨"voltage_l1", 4034, .scaled (1/10)⟩,
   ⟨"voltage_l2", 4036, .scaled (1/10)⟩,
   ⟨"voltage_l3", 4038, .scaled (1/10)⟩,
   ⟨"voltage_l12", 4028, .scaled (1/10)⟩,
   ⟨"voltage_l23", 4030, .scaled (1/10)⟩,
   ⟨"voltage_l31", 4032, .scaled (1/10)⟩,
   ⟨"voltage_l12_max", 4124, .scaled (1/10)⟩,
   ⟨"voltage_l23_max", 4128, .scaled (1/10)⟩,
   ⟨"voltage_l31_max", 4132, .scaled (1/10)⟩,
   ⟨"voltage_l12_min", 4212, .scaled (1/10)⟩,
   ⟨"voltage_l23_min", 4216, .scaled (1/10)⟩,
   ⟨"voltage_l31_min", 4220, .scaled (1/10)⟩,
   ⟨"current_l1", 4020, .scaled (1/1000)⟩,
   ⟨"current_l2", 4022, .scaled (1/1000)⟩,
   ⟨"current_l3", 4024, .scaled (1/1000)⟩,
   ⟨"current_ln", 4026, .scaled (1/1000)⟩,
   ⟨"total_real_power", 4012, .scaled 1⟩,
   ⟨"total_apparent_power", 4014, .scaled 1⟩,
   ⟨"total_reactive_power", 4016, .scaled 1⟩,
   ⟨"total_power_factor", 4018, .decimal 3 true⟩,
   ⟨"frequency", 4019, .decimal 2 false⟩,
   ⟨"total_real_energy", 4002, .scaled 1⟩,
   ⟨"total_reactive_energy", 4010, .scaled 1⟩,
   ⟨"total_apparent_energy", 4006, .scaled 1⟩]

/-- RX380.read_data: the dict of field name to optional value.  The outer
`except Exception: return None` of the source is unreachable because every
helper catches its own exceptions, so the function always returns the dict. -/
def read_data (T : Transport) : List (String × Option ℚ) :=
  registerSpecs.map fun s => (s.name, decodeField T s)

/-- Python truthiness of a dict/list: non-empty. -/
def pyTruthy (l : List (String × Option ℚ)) : Bool := !l.isEmpty

/-- One sampled record: the dict produced by read_data plus the timestamp key
that main assigns right after read_data returns (`data['timestamp'] = ...`).
The timestamp is modelled as seconds on an absolute clock. -/
structure Record where
  timestamp : Nat
  fields : List (String × Option ℚ)
deriving DecidableEq

/-- Rx380_watchdog_1.56.py main lines 204-207: the pass is triggered at
`tTrig`, `read_data` runs for `dRead` seconds, and the record is stamped with
`datetime.now()` taken after read_data returned, i.e. `tTrig + dRead`. -/
def recordOfPass (tTrig dRead : Nat) (T : Transport) : Record :=
  ⟨tTrig + dRead, read_data T⟩

/-- One SQL parameter of the insert-values tuple: the timestamp, a numeric
value, or NULL (pymssql sends Python None as NULL). -/
inductive SqlVal
  | ts (t : Nat)
  | num (q : ℚ)
  | null
deriving DecidableEq

/-- One committed row. -/
abbrev Row := List SqlVal

/-- Dict access `data[k]`: a missing key raises KeyError. -/
def getKey (fields : List (String × Option ℚ)) (k : String) : Except PyErr (Option ℚ) :=
  match fields.lookup k with
  | some v => .ok v
  | none => .error ()

/-- Python `v / 1000` where v is the optional field value: None / 1000 raises
TypeError; a number divides exactly. -/
def pyDiv1000 : Option ℚ → Except PyErr SqlVal
  | some q => .ok (.num (q / 1000))
  | none => .error ()

/-- A field value passed through unchanged: None becomes NULL. -/
def toVal : Option ℚ → SqlVal
  | some q => .num q
  | none => .null

/-- Shape of one element of the `values` tuple of DataManager.save_to_sql:
the timestamp, a plain field lookup, or a field lookup divided by 1000. -/
inductive ValSpec
  | tsVal
  | plain (key : String)
  | divided (key : String)
deriving DecidableEq

/-- The `values` tuple of DataManager.save_to_sql (Rx380_watchdog_1.56.py
lines 131-141, identical in 1.55 lines 133-143 and 1.54 lines 62-71), element
by element in evaluation order. -/
def componentSpecs : List ValSpec :=
  [.tsVal,
   .plain "voltage_l1", .plain "voltage_l2", .plain "voltage_l3",
   .plain "voltage_l12", .plain "voltage_l23", .plain "voltage_l31",
   .plain "voltage_l12_max", .plain "voltage_l23_max", .plain "voltage_l31_max",
   .plain "voltage_l12_min", .plain "voltage_l23_min", .plain "voltage_l31_min",
   .plain "current_l1", .plain "current_l2", .plain "current_l3", .plain "current_ln",
   .divided "total_real_power", .divided "total_apparent_power", .divided "total_reactive_power",
   .plain "total_power_factor", .plain "frequency",
   .plain "total_real_energy", .plain "total_reactive_energy", .plain "total_apparent_energy"]

/-- Evaluate one element of the values tuple for a record. -/
def evalComponent (r : Record) : ValSpec → Except PyErr SqlVal
  | .tsVal => .ok (.ts r.timestamp)
  | .plain k => do
      let v ← getKey r.fields k
      .ok (toVal v)
  | .divided k => do
      let v ← getKey r.fields k
      pyDiv1000 v

/-- Evaluate the tuple elements left to right, stopping at the first raised
exception, as Python tuple construction does. -/
def evalComponents (r : Record) : List ValSpec → Except PyErr Row
  | [] => .ok []
  | c :: cs => do
      let v ← evalComponent r c
      let vs ← evalComponents r cs
      .ok (v :: vs)

/-- Build the `values` tuple for one record of the buffer; raises (TypeError /
KeyError) exactly when an element raises. -/
def buildValues (r : Record) : Except PyErr Row :=
  evalComponents r componentSpecs

/-- Oracles for the SQL collaborators: the result of pymssql.connect, of the
i-th cursor.execute, and of conn.commit. -/
structure SqlEnv where
  connect : Except PyErr Unit
  exec : Nat → Except PyErr Unit
  commit : Except PyErr Unit

/-- Observable actions of one save_to_sql call, for stating what the code
never does (sleep between retries, append to a backup queue). -/
inductive Event
  | connectAttempt
  | sleep (seconds : Nat)
  | backupAppend
  | logError
  | logInfo
deriving DecidableEq

/-- The backoff-sleep events among a trace. -/
def isSleep : Event → Bool
  | .sleep _ => true
  | _ => false

/-- The `for data in data_buffer` loop of DataManager.save_to_sql
(Rx380_watchdog_1.56.py lines 130-142): build the values tuple and execute the
insert for each record in order; the rows are pending until commit. -/
def execLoop (env : SqlEnv) : List Record → Nat → Except PyErr (List Row)
  | [], _ => .ok []
  | r :: rest, i => do
      let row ← buildValues r
      let _ ← env.exec i
      let rows ← execLoop env rest (i + 1)
      .ok (row :: rows)

/-- DataManager.save_to_sql of Rx380_watchdog_1.56.py lines 116-153 (identical
in 1.55): connect, execute each record's insert, commit once; any exception is
caught, logged, and rolled back, so the committed rows (`db`) change only when
the commit line is reached.  Returns (succeeded, committed rows, trace).  The
function itself never raises. -/
def save_to_sql (env : SqlEnv) (db : List Row) (data_buffer : List Record) :
    Bool × List Row × List Event :=
  match env.connect with
  | .error _ => (false, db, [.connectAttempt, .logError])
  | .ok _ =>
    match execLoop env data_buffer 0 with
    | .error _ => (false, db, [.connectAttempt, .logError])
    | .ok pending =>
      match env.commit with
      | .error _ => (false, db, [.connectAttempt, .logError])
      | .ok _ => (true, db ++ pending, [.connectAttempt, .logInfo])

/-- DataManager.save_to_sql of Rx380_watchdog_1.54.py lines 49-81: one record,
one connect, one execute, one commit; the except branch only logs (1.54 has no
rollback, but nothing was committed).  No loop, no sleep, no retry, and
self.backup_file is never touched. -/
def save_to_sql_154 (env : SqlEnv) (db : List Row) (data : Record) :
    Bool × List Row × List Event :=
  match env.connect with
  | .error _ => (false, db, [.connectAttempt, .logError])
  | .ok _ =>
    match buildValues data with
    | .error _ => (false, db, [.connectAttempt, .logError])
    | .ok row =>
      match env.exec 0 with
      | .error _ => (false, db, [.connectAttempt, .logError])
      | .ok _ =>
        match env.commit with
        | .error _ => (false, db, [.connectAttempt, .logError])
        | .ok _ => (true, db ++ [row], [.connectAttempt, .logInfo])

/-- DataManager.__init__ of Rx380_watchdog_1.54.py line 45: declared retry
budget; no code in the file reads it. -/
def retry_attempts : Nat := 3

/-- DataManager.__init__ of Rx380_watchdog_1.54.py line 46: declared backup
file name; no code in the file reads or writes it. -/
def backup_file : String := "unsaved_data.json"

/-- Rx380_watchdog_1.56.py main line 193: the first save instant,
`(now + timedelta(minutes=10 - now.minute % 10)).replace(second=0,
microsecond=0)`, with the clock `t` in absolute seconds so that
`now.minute = t / 60 % 60`. -/
def nextSaveTime (t : Nat) : Nat :=
  ((t + 60 * (10 - (t / 60 % 60) % 10)) / 60) * 60

/-- Rx380_watchdog_1.56.py main line 216: after a completed pass the next save
instant is `(datetime.now() + timedelta(minutes=10)).replace(second=0,
microsecond=0)` where `t` is the wall clock when the save finished. -/
def reschedule_156 (t : Nat) : Nat :=
  ((t + 600) / 60) * 60

/-- Rx380_watchdog_1.54.py main line 115: a save is gated on
`datetime.now().minute % 10 == 0`. -/
def canSave_154 (t : Nat) : Bool := (t / 60 % 60) % 10 == 0

/-- The body of the 1.55 acquisition loop that buffers one pass
(Rx380_watchdog_1.55.py main lines 199-204): read, and if the dict is truthy,
stamp it and append it to data_buffer. -/
def bufferStep_155 (T : Transport) (ts : Nat) (data_buffer : List Record) : List Record :=
  let data := read_data T
  if pyTruthy data then data_buffer ++ [⟨ts, data⟩] else data_buffer

/-- The body of the 1.56 save cycle (Rx380_watchdog_1.56.py main lines
204-217): read, and if the dict is truthy stamp the record, call save_to_sql
(which swallows its own exceptions), then save_to_csv.  save_to_csv (lines
160-180) has no exception handling and main catches only CancelledError and
KeyboardInterrupt, so `csvOk = false` makes the body raise: the second
component is the body's outcome, the first is the committed-rows state, which
the raise does not undo. -/
def loopBody_156 (T : Transport) (csvOk : Bool) (env : SqlEnv) (db : List Row)
    (tTrig dRead : Nat) : List Row × Except PyErr Unit :=
  let data := read_data T
  if pyTruthy data then
    let r := recordOfPass tTrig dRead T
    let res := save_to_sql env db [r]
    if csvOk then (res.2.1, .ok ()) else (res.2.1, .error ())
  else (db, .ok ())

/-- Transport on which every register read raises (serial bus down). -/
def failAll : Transport := fun _ _ => .error ()

/-- Transport that fails only at one register address, like a single bad
register or one timed-out read. -/
def failAt (T : Transport) (a : Nat) : Transport := fun addr count =>
  if addr = a then .error () else T addr count

/-- Transport on which every read returns the words [1, 2]. -/
def okTransport : Transport := fun _ _ => .ok [1, 2]

/-- SQL environment in which connect, execute and commit all succeed. -/
def envAllOk : SqlEnv := ⟨.ok (), fun _ => .ok (), .ok ()⟩

/-- SQL environment in which the connection fails on every attempt (server
unreachable). -/
def envConnFail : SqlEnv := ⟨.error (), fun _ => .ok (), .ok ()⟩

/-- A record whose total_real_power field decoded to absent. -/
def badRecord : Record := ⟨0, [("total_real_power", none)]⟩

/-! ## Helper lemmas -/

theorem evalComponents_cons_ok {r : Record} {c : ValSpec} {cs : List ValSpec}
    {row : Row} (h : evalComponents r (c :: cs) = .ok row) :
    ∃ v vs, evalComponent r c = .ok v ∧ evalComponents r cs = .ok vs ∧ row = v :: vs := by
  cases h1 : evalComponent r c with
  | error e => simp [evalComponents, bind, Except.bind, h1] at h
  | ok v =>
    cases h2 : evalComponents r cs with
    | error e => simp [evalComponents, bind, Except.bind, h1, h2] at h
    | ok vs =>
      simp [evalComponents, bind, Except.bind, h1, h2] at h
      exact ⟨v, vs, rfl, rfl, h.symm⟩

theorem evalComponents_err {r : Record} {c : ValSpec}
    (hc : evalComponent r c = .error ()) :
    ∀ {l : List ValSpec}, c ∈ l → evalComponents r l = .error () := by
  intro l
  induction l with
  | nil => intro h; cases h
  | cons d ds ih =>
    intro hmem
    rcases List.mem_cons.mp hmem with rfl | hmem
    · simp [evalComponents, bind, Except.bind, hc]
    · cases h1 : evalComponent r d with
      | error e => simp [evalComponents, bind, Except.bind, h1]
      | ok v => simp [evalComponents, bind, Except.bind, h1, ih hmem]

theorem buildValues_power_none (r : Record)
    (h : r.fields.lookup "total_real_power" = some none ∨
         r.fields.lookup "total_apparent_power" = some none ∨
         r.fields.lookup "total_reactive_power" = some none) :
    buildValues r = .error () := by
  rcases h with h | h | h
  · exact evalComponents_err (c := .divided "total_real_power")
      (by simp [evalComponent, getKey, bind, Except.bind, h, pyDiv1000]) (by simp [componentSpecs])
  · exact evalComponents_err (c := .divided "total_apparent_power")
      (by simp [evalComponent, getKey, bind, Except.bind, h, pyDiv1000]) (by simp [componentSpecs])
  · exact evalComponents_err (c := .divided "total_reactive_power")
      (by simp [evalComponent, getKey, bind, Except.bind, h, pyDiv1000]) (by simp [componentSpecs])

theorem execLoop_err_of_mem (env : SqlEnv) {r : Record}
    (hb : buildValues r = .error ()) :
    ∀ (buf : List Record), r ∈ buf → ∀ i, execLoop env buf i = .error () := by
  intro buf
  induction buf with
  | nil => intro h; cases h
  | cons d ds ih =>
    intro hmem i
    rcases List.mem_cons.mp hmem with rfl | hmem
    · simp [execLoop, bind, Except.bind, hb]
    · cases h1 : buildValues d with
      | error e => simp [execLoop, bind, Except.bind, h1]
      | ok row =>
        cases h2 : env.exec i with
        | error e => simp [execLoop, bind, Except.bind, h1, h2]
        | ok u => simp [execLoop, bind, Except.bind, h1, h2, ih hmem (i + 1)]

theorem execLoop_ok_length (env : SqlEnv) :
    ∀ (buf : List Record) (i : Nat) (pending : List Row),
    execLoop env buf i = .ok pending → pending.length = buf.length := by
  intro buf
  induction buf with
  | nil => intro i pending h; simp [execLoop] at h; simp [h.symm]
  | cons d ds ih =>
    intro i pending h
    cases h1 : buildValues d with
    | error e => simp [execLoop, bind, Except.bind, h1] at h
    | ok row =>
      cases h2 : env.exec i with
      | error e => simp [execLoop, bind, Except.bind, h1, h2] at h
      | ok u =>
        cases h3 : execLoop env ds (i + 1) with
        | error e => simp [execLoop, bind, Except.bind, h1, h2, h3] at h
        | ok rows =>
          simp [execLoop, bind, Except.bind, h1, h2, h3] at h
          simp [h.symm, ih (i + 1) rows h3]

theorem decodeField_failAt (T : Transport) (a : Nat) (s : RegSpec) :
    decodeField (failAt T a) s = if s.addr = a then none else decodeField T s := by
  by_cases h : s.addr = a
  · cases henc : s.enc <;>
      simp [decodeField, read_scaled_value, read_register, failAt, h, henc]
  · cases henc : s.enc <;>
      simp [decodeField, read_scaled_value, read_register, failAt, h, henc]

theorem decodeLog_failAt (T : Transport) (a : Nat) (s : RegSpec) :
    decodeLog (failAt T a) s = if s.addr = a then [s.addr] else decodeLog T s := by
  by_cases h : s.addr = a
  · cases henc : s.enc <;>
      simp [decodeLog, read_scaled_value, read_register, failAt, h, henc]
  · cases henc : s.enc <;>
      simp [decodeLog, read_scaled_value, read_register, failAt, h, henc]

/-! ## Claim theorems -/

/-- C1: the code has no Backup Queue path at all.  When the durable delivery
fails (here: the connection fails, which exhausts the code's single attempt),
DataManager.save_to_sql logs the error and returns with the committed rows
unchanged and a trace containing no Event.backupAppend: the batch is dropped,
not handed to any backup store. -/
theorem c1_failed_batch_dropped_not_backed_up (env : SqlEnv) (db : List Row)
    (data_buffer : List Record) (h : env.connect = .error ()) :
    save_to_sql env db data_buffer =
      (false, db, [Event.connectAttempt, Event.logError]) := by
  simp [save_to_sql, h]

/-- C1 witness: a concrete one-record batch against an unreachable server is
simply dropped. -/
theorem c1_failed_batch_dropped_witness :
    save_to_sql envConnFail [] [⟨0, read_data okTransport⟩] =
      (false, [], [Event.connectAttempt, Event.logError]) :=
  c1_failed_batch_dropped_not_backed_up envConnFail [] [⟨0, read_data okTransport⟩] rfl

/-- C2: DataManager.save_to_sql of version 1.54 makes exactly one delivery
attempt (one connect) and sleeps no backoff delay, whatever the outcome,
although DataManager.__init__ declares retry_attempts = 3: there is no retry
loop and no exponential backoff. -/
theorem c2_single_attempt_no_backoff (env : SqlEnv) (db : List Row) (data : Record) :
    (save_to_sql_154 env db data).2.2.count Event.connectAttempt = 1 ∧
    (save_to_sql_154 env db data).2.2.countP isSleep = 0 ∧
    retry_attempts = 3 := by
  unfold save_to_sql_154
  repeat' split
  all_goals exact ⟨rfl, rfl, rfl⟩

/-- C3: on a pass where every register read fails, read_data returns the dict
with all 24 fields None; that dict is truthy in Python, so the `if data:`
guard of main (Rx380_watchdog_1.55.py lines 200-203) appends the all-absent
record to the buffer instead of discarding it. -/
theorem c3_all_absent_pass_is_buffered :
    ((read_data failAll).all fun p => p.2 == none) = true ∧
    pyTruthy (read_data failAll) = true ∧
    bufferStep_155 failAll 0 [] = [⟨0, read_data failAll⟩] ∧
    (bufferStep_155 failAll 0 []).length = 1 := by
  refine ⟨by decide, by decide, by decide, by decide⟩

/-- C4: for every start instant t (seconds), the first scheduled save instant
of Rx380_watchdog_1.56.py is strictly after t, falls on a 10-minute wall-clock
boundary, and is the earliest such boundary (so a start at :03 first triggers
at :10, never earlier); and version 1.54 only ever saves when the wall-clock
minute is a multiple of 10. -/
theorem c4_boundary_alignment_waits (t : Nat) :
    t < nextSaveTime t ∧
    nextSaveTime t % 600 = 0 ∧
    (∀ b : Nat, b % 600 = 0 → t < b → nextSaveTime t ≤ b) ∧
    (canSave_154 t = true → t / 60 % 10 = 0) := by
  refine ⟨?_, ?_, fun b hb hlt => ?_, fun h => ?_⟩
  · unfold nextSaveTime; omega
  · unfold nextSaveTime; omega
  · unfold nextSaveTime; omega
  · unfold canSave_154 at h; simp at h; omega

/-- C4 witness: started at :03:00 (t = 180) the first trigger is :10:00
(t = 600), a boundary, minimal, and after the start; and 1.54 cannot save
at :03. -/
theorem c4_boundary_alignment_witness :
    nextSaveTime 180 = 600 ∧ 180 < nextSaveTime 180 ∧ nextSaveTime 180 % 600 = 0 ∧
    nextSaveTime 180 ≤ 600 ∧ canSave_154 180 = false := by
  have h := c4_boundary_alignment_waits 180
  exact ⟨by decide, h.1, h.2.1, h.2.2.1 600 (by decide) (by decide), by decide⟩

/-- C5: in version 1.56 a failing CSV write does not change the durable (SQL)
outcome for the batch — the SQL save has already completed, here committing
one row — but the exception escapes the loop body unlogged (save_to_csv has no
handler and main catches only CancelledError and KeyboardInterrupt), so the
sampling loop terminates: the failure is fatal, not logged-and-contained. -/
theorem c5_csv_failure_fatal_after_sql :
    (loopBody_156 okTransport false envAllOk [] 600 2).2 = Except.error () ∧
    (loopBody_156 okTransport false envAllOk [] 600 2).1 =
      (save_to_sql envAllOk [] [recordOfPass 600 2 okTransport]).2.1 ∧
    (loopBody_156 okTransport false envAllOk [] 600 2).1.length = 1 := by
  refine ⟨rfl, rfl, by decide⟩

/-- C6: failing the transport at one register address makes exactly the fields
that read that address decode to absent, with the failure logged with that
register address, while every other field of the same pass decodes exactly as
it would without the failure. -/
theorem c6_field_failure_isolated (T : Transport) (a : Nat) (s : RegSpec) :
    decodeField (failAt T a) s = (if s.addr = a then none else decodeField T s) ∧
    decodeLog (failAt T a) s = (if s.addr = a then [s.addr] else decodeLog T s) ∧
    read_data (failAt T a) =
      registerSpecs.map fun s2 => (s2.name, if s2.addr = a then none else decodeField T s2) := by
  refine ⟨decodeField_failAt T a s, decodeLog_failAt T a s, ?_⟩
  unfold read_data
  exact List.map_congr_left fun s2 _ => by rw [decodeField_failAt]

/-- C7 counterexample: a pass triggered on the :10 boundary (t = 600 s) whose
read and save finish 65 s later (t = 665 s) is rescheduled by
Rx380_watchdog_1.56.py line 216 to 1260 s = :21:00, which is not on a
10-minute boundary: the claim that every scheduled trigger falls on a boundary
is false. -/
theorem c7_reschedule_off_boundary_cex :
    reschedule_156 (600 + 65) = 1260 ∧ reschedule_156 (600 + 65) % 600 ≠ 0 := by
  refine ⟨by decide, by decide⟩

/-- C7 (amended): after a completed pass the next trigger is recomputed from
the current wall clock alone — completion time plus 10 minutes, truncated to
the whole minute, never last trigger plus interval — so drift does not
accumulate; the result is a 10-minute boundary when the pass completes within
a minute that is a multiple of 10, but not in general. -/
theorem c7_reschedule_from_wall_clock (t : Nat) :
    reschedule_156 t = 60 * (t / 60 + 10) ∧
    t < reschedule_156 t ∧
    (t / 60 % 10 = 0 → reschedule_156 t % 600 = 0) := by
  refine ⟨?_, ?_, fun h => ?_⟩ <;> unfold reschedule_156 <;> omega

/-- C8 counterexample: a pass triggered at t = 600 s whose register reads take
5 s produces a record stamped 605, not 600: the timestamp is not the instant
the pass began. -/
theorem c8_timestamp_not_pass_start_cex :
    (recordOfPass 600 5 okTransport).timestamp = 605 ∧
    (recordOfPass 600 5 okTransport).timestamp ≠ 600 := by
  refine ⟨rfl, by decide⟩

/-- C8 (amended): a Record's timestamp is the instant its register reads
completed (trigger instant plus read duration), taken once when the record is
created, and it is carried unchanged into the first element of the SQL values
tuple — never retroactively adjusted. -/
theorem c8_timestamp_set_once_at_read_end (tTrig dRead : Nat) (T : Transport) :
    (recordOfPass tTrig dRead T).timestamp = tTrig + dRead ∧
    ∀ row, buildValues (recordOfPass tTrig dRead T) = .ok row →
      row.head? = some (.ts (tTrig + dRead)) := by
  refine ⟨rfl, fun row h => ?_⟩
  rw [buildValues] at h
  rw [show componentSpecs = .tsVal :: componentSpecs.tail from rfl] at h
  obtain ⟨v, vs, hc, _, hrow⟩ := evalComponents_cons_ok h
  simp [evalComponent] at hc
  simp [hrow, ← hc, recordOfPass]

/-- C9: delivery of a batch by DataManager.save_to_sql is all-or-nothing: it
either reports success with the commit reached and exactly one pending row per
record appended to the committed rows by the single commit, or reports failure
with the committed rows unchanged (the exception path rolls back). -/
theorem c9_batch_delivery_atomic (env : SqlEnv) (db : List Row)
    (data_buffer : List Record) :
    ((save_to_sql env db data_buffer).1 = true ∧ env.commit = .ok () ∧
      ∃ pending, execLoop env data_buffer 0 = .ok pending ∧
        pending.length = data_buffer.length ∧
        (save_to_sql env db data_buffer).2.1 = db ++ pending) ∨
    ((save_to_sql env db data_buffer).1 = false ∧
      (save_to_sql env db data_buffer).2.1 = db) := by
  unfold save_to_sql
  cases h1 : env.connect with
  | error e => right; simp
  | ok u =>
    cases h2 : execLoop env data_buffer 0 with
    | error e => right; simp
    | ok pending =>
      cases h3 : env.commit with
      | error e => right; simp
      | ok u2 =>
        left
        exact ⟨rfl, rfl, pending, rfl, execLoop_ok_length env data_buffer 0 pending h2, rfl⟩

/-- C10: a batch containing a record whose total_real_power,
total_apparent_power or total_reactive_power is absent fails as a whole:
building the values tuple raises (None / 1000), the exception rolls the
transaction back, and no record of the batch is committed. -/
theorem c10_absent_power_fails_whole_batch (env : SqlEnv) (db : List Row)
    (data_buffer : List Record) (r : Record) (hmem : r ∈ data_buffer)
    (h : r.fields.lookup "total_real_power" = some none ∨
         r.fields.lookup "total_apparent_power" = some none ∨
         r.fields.lookup "total_reactive_power" = some none) :
    save_to_sql env db data_buffer =
      (false, db, [Event.connectAttempt, Event.logError]) := by
  have hloop := execLoop_err_of_mem env (buildValues_power_none r h) data_buffer hmem 0
  cases h1 : env.connect with
  | error e => simp [save_to_sql, h1]
  | ok u => simp [save_to_sql, h1, hloop]

/-- C10 witness: a concrete singleton batch whose record lacks
total_real_power is rejected wholesale even with a healthy SQL server. -/
theorem c10_absent_power_witness :
    save_to_sql envAllOk [] [badRecord] =
      (false, [], [Event.connectAttempt, Event.logError]) :=
  c10_absent_power_fails_whole_batch envAllOk [] [badRecord] badRecord
    (List.mem_singleton.mpr rfl) (Or.inl rfl)

end Rx380
